import Mathlib

/-!
Shallow embedding of the panorama-stitching program (src/panorama.cpp) and
proofs of the specification claims about it.

External effects (the stitching engine, image codecs, dialogs, notifications)
are modelled as events in a trace or as oracle functions; machine state that
matters to the claims (the cv::Mat pixel-buffer sharing, the video device
read position) is made explicit.
-/

namespace Panorama

/-- The `Status` enum of panorama.cpp. -/
inductive Status
  | OK
  | EXIT
  | ERROR
deriving DecidableEq, Repr

/-- Result of `cv::imread` for the static-upload path: an in-memory image,
abstracted to whether its data pointer is non-null (`valid`).  A failed
decode yields the empty placeholder `⟨false⟩`. -/
structure StImage where
  valid : Bool
deriving DecidableEq, Repr

/-- Observable external effects of the pipeline: a call into
`cv::Stitcher::stitch` with the number of images, a `showNotification`,
a `showError`, and a `cv::imwrite` to a destination path. -/
inductive Event
  | stitchCall (n : Nat)
  | notify (msg : String)
  | error (msg : String)
  | encodeCall (path : String)
deriving DecidableEq, Repr

def isEncodeEvent : Event → Bool
  | Event.encodeCall _ => true
  | _ => false

def isNotifyEvent : Event → Bool
  | Event.notify _ => true
  | _ => false

/-- `promptSaveImage` (panorama.cpp:273-292): after the yes/no dialog
resolves, a "yes" answer opens a save dialog; a non-empty chosen path leads
to one `cv::imwrite` and one `showNotification`; "no", or an empty path,
does nothing.  `answerYes` is the resolved dialog answer and `dir` the
resolved save-dialog path. -/
def promptSaveImage (answerYes : Bool) (dir : String) : List Event :=
  if answerYes then
    if dir ≠ "" then
      [Event.encodeCall dir, Event.notify ("Panorama saved at: " ++ dir)]
    else []
  else []

/-- `createPanorama` (panorama.cpp:249-271): always calls the stitcher on
the full image set; on `cv::Stitcher::OK` notifies success, shows the
result and runs the save prompt; otherwise reports the error.  `stitchOk`
is the outcome of the external stitching engine. -/
def createPanorama (stitchOk answerYes : Bool) (dir : String) (n : Nat) : List Event :=
  Event.stitchCall n ::
    (if stitchOk then
      Event.notify "Panorama successfully created!" :: promptSaveImage answerYes dir
    else
      [Event.error "Panorama could not be created."])

/-- The body of `main` after `parseArgs` returned (panorama.cpp:54-61):
on `Status::OK`, stitch when more than one image was acquired, otherwise
report the insufficient-images error; on any other status do nothing. -/
def mainEvents (status : Status) (images : List StImage) (stitchOk answerYes : Bool)
    (dir : String) : List Event :=
  if status = Status.OK then
    if 1 < images.length then
      createPanorama stitchOk answerYes dir images.length
    else
      [Event.error "Not enough images provided"]
  else []

/-- The parsed cxxopts result consumed by `parseArgs`
(panorama.cpp:82-103): for each flag, whether it was given and, for the
value-carrying flags, its parsed value. -/
structure ParsedArgs where
  help : Bool
  demo : Option Nat
  camera : Bool
  select : Bool
  imagesArg : Option (List String)
  video : Option String
deriving DecidableEq, Repr

/-- Outcome of `options.parse`: either a parsed result or a thrown
`cxxopts::OptionException` with its message. -/
inductive ParseOutcome
  | ok (a : ParsedArgs)
  | exn (msg : String)
deriving DecidableEq, Repr

/-- Which frame-source adapter `parseArgs` invokes. -/
inductive Adapter
  | demo (d : Nat)
  | camera
  | select
  | upload (files : List String)
  | video (file : String)
deriving DecidableEq, Repr

/-- `parseArgs` (panorama.cpp:66-118): on an exception, report and return
`Status::ERROR`; otherwise dispatch on the first matching flag of the
else-if chain help / demo / camera / select / images / video, returning
the adapter the chain invokes (acquisition side effect) and the status.
No flag matching prints the usage hint and returns `Status::EXIT`. -/
def parseArgs : ParseOutcome → Status × Option Adapter
  | ParseOutcome.exn _ => (Status.ERROR, none)
  | ParseOutcome.ok a =>
    if a.help then (Status.EXIT, none)
    else match a.demo with
    | some d => (Status.OK, some (Adapter.demo d))
    | none =>
      if a.camera then (Status.OK, some Adapter.camera)
      else if a.select then (Status.OK, some Adapter.select)
      else match a.imagesArg with
      | some files => (Status.OK, some (Adapter.upload files))
      | none =>
        match a.video with
        | some file => (Status.OK, some (Adapter.video file))
        | none => (Status.EXIT, none)

/-- Number of source flags given (a value ≥ 2 means conflicting sources). -/
def numSources (a : ParsedArgs) : Nat :=
  (if a.demo.isSome then 1 else 0) + (if a.camera then 1 else 0) +
  (if a.select then 1 else 0) + (if a.imagesArg.isSome then 1 else 0) +
  (if a.video.isSome then 1 else 0)

/-- The source adapter that comes first in the priority order of the
else-if chain: demo, camera, select, images, video. -/
def firstSource (a : ParsedArgs) : Option Adapter :=
  match a.demo with
  | some d => some (Adapter.demo d)
  | none =>
    if a.camera then some Adapter.camera
    else if a.select then some Adapter.select
    else match a.imagesArg with
    | some files => some (Adapter.upload files)
    | none => Option.map Adapter.video a.video

/-- An invocation giving both `--camera` and `--video`: two conflicting
source flags. -/
def conflictingArgs : ParsedArgs :=
  { help := false, demo := none, camera := true, select := false,
    imagesArg := none, video := some "video.mp4" }

/-- Whole-process model of `main` (panorama.cpp:49-64): parse, acquire via
the dispatched adapter (`acquire` is the oracle for what the adapter
loads into `images`), run the post-parse pipeline, and return exit code 0
(the C++ `main` unconditionally ends in `return 0`). -/
def mainFull (p : ParseOutcome) (acquire : Adapter → List StImage)
    (stitchOk answerYes : Bool) (dir : String) : List Event × Nat :=
  let sa := parseArgs p
  let images := match sa.2 with
    | some ad => acquire ad
    | none => []
  (mainEvents sa.1 images stitchOk answerYes dir, 0)

/-- `uploadImages` (panorama.cpp:215-220): for each file in order, decode
it with `cv::imread` (`imread` oracle; a failed decode returns the empty
placeholder image) and append the result unconditionally. -/
def uploadImages (imread : String → StImage) (images : List StImage)
    (files : List String) : List StImage :=
  files.foldl (fun imgs file => imgs ++ [imread file]) images

/-- The hardcoded demo catalog of `runDemo` (panorama.cpp:122-127). -/
def demos : List (String × Nat) :=
  [("carmel", 18), ("diamondhead", 23), ("example", 2),
   ("fishbowl", 13), ("goldengate", 6), ("halfdome", 14),
   ("hotel", 8), ("office", 4), ("rio", 56),
   ("shanghai", 30), ("yard", 9)]

/-- One generated demo path (panorama.cpp:134-136):
`./demos/<name>/<name>-<NN>.png`, with the index zero-padded to two digits
when below 10 and unpadded otherwise. -/
def demoFile (name : String) (i : Nat) : String :=
  "./demos/" ++ name ++ "/" ++ name ++ "-" ++ (if i < 10 then "0" else "")
    ++ toString i ++ ".png"

/-- `runDemo` (panorama.cpp:121-141): the `assert` rejects an id outside
the catalog (modelled as `none`) before any path is generated; a valid id
generates the catalog entry's `frameCount` paths in ascending index
order. -/
def runDemo (demo : Nat) : Option (List String) :=
  if demo < demos.length then
    some ((List.range (demos.getD demo ("", 0)).2).map
      (demoFile (demos.getD demo ("", 0)).1))
  else none

/-- Key codes of panorama.cpp:35-36. -/
def RETURN : Nat := 13

def ESCAPE : Nat := 27

/-- A `cv::Mat` header: `buf` identifies the shared, reference-counted
pixel buffer.  The `cv::Mat` copy constructor copies the header only, so
the copy aliases the same `buf`. -/
structure Mat where
  buf : Nat
deriving DecidableEq, Repr

/-- One cycle of input to the camera loop: either the camera yields no
frame (`frame.data` null), or it yields a fresh frame and `cv::waitKey`
then reports `key` (0 standing for no key pressed). -/
inductive CamCycle
  | eos
  | frame (key : Nat)
deriving DecidableEq, Repr

/-- `cv::putText` draws into the pixel buffer of its argument: the buffer
is recorded as carrying the overlay text. -/
def putText (overlaid : List Nat) (m : Mat) : List Nat :=
  m.buf :: overlaid

/-- The capture loop of `cameraCapture` (panorama.cpp:149-197).  Cycle
inputs come from `script`; `idx` numbers the fresh pixel buffer allocated
by `feed >> frame` each cycle; `overlaid` records which buffers have had
overlay text drawn into them; `images` is the accumulated result vector.
Each cycle with a frame builds `display_frame( frame )` — a header copy
aliasing the same buffer — draws the instruction text twice into it
(outline pass and fill pass), shows it, then on RETURN appends `frame`
and on ESCAPE leaves the loop. -/
def cameraCaptureGo : List CamCycle → Nat → List Nat → List Mat → List Nat × List Mat
  | [], _, overlaid, images => (overlaid, images)
  | CamCycle.eos :: _, _, overlaid, images => (overlaid, images)
  | CamCycle.frame key :: rest, idx, overlaid, images =>
    let frame : Mat := ⟨idx⟩
    let displayFrame : Mat := ⟨frame.buf⟩
    let overlaid1 := putText (putText overlaid displayFrame) displayFrame
    let images1 := if key = RETURN then images ++ [frame] else images
    if key = ESCAPE then (overlaid1, images)
    else cameraCaptureGo rest (idx + 1) overlaid1 images1

/-- The buffers of the frames the user captures: one per cycle whose key
is RETURN, in script order, stopping at ESCAPE or end of stream. -/
def capturedBufs : List CamCycle → Nat → List Nat
  | [], _ => []
  | CamCycle.eos :: _, _ => []
  | CamCycle.frame key :: rest, idx =>
    if key = ESCAPE then []
    else (if key = RETURN then [idx] else []) ++ capturedBufs rest (idx + 1)

/-- The stride computation of `videoCapture` (panorama.cpp:230):
`frame_count * frequency` truncated to an integer, with the sampling
fraction given exactly as `fNum / fDen`. -/
def strideOf (total fNum fDen : Nat) : Nat :=
  total * fNum / fDen

/-- The read loop of `videoCapture` (panorama.cpp:232-244), fuelled.  The
device holds frames 0 .. total-1; `pos` is the device read position and
`framePos` the loop's `frame_position` variable.  A read at `pos < total`
succeeds: the frame is appended (recorded by its position in `acc`) and
the device is repositioned to `frame_position + frame_frequency`, which
also becomes the new `frame_position`; a read at or past `total` fails and
the loop breaks.  `none` means the fuel ran out with the loop still
running. -/
def videoLoopFuel : Nat → Nat → Nat → Nat → Nat → List Nat → Option (List Nat)
  | 0, _, _, _, _, _ => none
  | fuel + 1, total, stride, pos, framePos, acc =>
    if pos < total then
      videoLoopFuel fuel total stride (framePos + stride) (framePos + stride)
        (acc ++ [pos])
    else some acc

/-- `videoCapture` entry: position and `frame_position` start at 0. -/
def videoCapture (total stride fuel : Nat) : Option (List Nat) :=
  videoLoopFuel fuel total stride 0 0 []

/-! Helper lemmas. -/

theorem uploadImages_eq_append (imread : String → StImage) (files : List String) :
    ∀ images, uploadImages imread images files = images ++ files.map imread := by
  induction files with
  | nil => intro images; simp [uploadImages]
  | cons f fs ih =>
    intro images
    have h2 := ih (images ++ [imread f])
    simp only [uploadImages, List.foldl_cons] at h2 ⊢
    rw [h2, List.map_cons, List.append_assoc, List.singleton_append]

theorem videoLoop_fuel_mono :
    ∀ (fuel k total stride pos fp : Nat) (acc l : List Nat),
      videoLoopFuel fuel total stride pos fp acc = some l →
      videoLoopFuel (fuel + k) total stride pos fp acc = some l := by
  intro fuel
  induction fuel with
  | zero =>
    intro k total stride pos fp acc l h
    simp [videoLoopFuel] at h
  | succ fuel ih =>
    intro k total stride pos fp acc l h
    rw [videoLoopFuel] at h
    have hadd : fuel + 1 + k = (fuel + k) + 1 := by omega
    by_cases hp : pos < total
    · rw [if_pos hp] at h
      rw [hadd, videoLoopFuel, if_pos hp]
      exact ih k total stride (fp + stride) (fp + stride) (acc ++ [pos]) l h
    · rw [if_neg hp] at h
      rw [hadd, videoLoopFuel, if_neg hp]
      exact h

theorem videoLoop_positions_aux :
    ∀ (fuel total stride fp : Nat) (acc l : List Nat),
      videoLoopFuel fuel total stride fp fp acc = some l →
      ∃ m, l = acc ++ (List.range m).map fun i => fp + i * stride := by
  intro fuel
  induction fuel with
  | zero =>
    intro total stride fp acc l h
    simp [videoLoopFuel] at h
  | succ fuel ih =>
    intro total stride fp acc l h
    rw [videoLoopFuel] at h
    by_cases hp : fp < total
    · rw [if_pos hp] at h
      obtain ⟨m, hm⟩ := ih total stride (fp + stride) (acc ++ [fp]) l h
      refine ⟨m + 1, ?_⟩
      rw [hm, List.append_assoc, List.singleton_append]
      congr 1
      rw [List.range_succ_eq_map, List.map_cons, List.map_map]
      congr 1
      · ring
      · congr 1
        funext i
        simp only [Function.comp, Nat.succ_eq_add_one]
        ring
    · rw [if_neg hp] at h
      refine ⟨0, ?_⟩
      simpa using h.symm

theorem videoLoop_terminates_aux :
    ∀ (fuel total stride fp : Nat) (acc : List Nat), 1 ≤ stride → total ≤ fp + fuel →
      (videoLoopFuel (fuel + 1) total stride fp fp acc).isSome := by
  intro fuel
  induction fuel with
  | zero =>
    intro total stride fp acc hs hle
    rw [videoLoopFuel, if_neg (by omega)]
    simp
  | succ fuel ih =>
    intro total stride fp acc hs hle
    rw [videoLoopFuel]
    by_cases hp : fp < total
    · rw [if_pos hp]
      exact ih total stride (fp + stride) (acc ++ [fp]) hs (by omega)
    · rw [if_neg hp]
      simp

theorem videoLoop_stuck :
    ∀ (fuel total : Nat) (acc : List Nat), 1 ≤ total →
      videoLoopFuel fuel total 0 0 0 acc = none := by
  intro fuel
  induction fuel with
  | zero =>
    intro total acc ht
    simp [videoLoopFuel]
  | succ fuel ih =>
    intro total acc ht
    rw [videoLoopFuel, if_pos (by omega)]
    simpa using ih total (acc ++ [0]) ht

/-! Claim theorems. -/

/-- Claim C1: for every image set of size 0 or 1 reaching the pipeline with
a successful parse (`Status.OK`), the stitching engine is never called and
the insufficient-images error is reported; the stitching engine is called
only when the set has at least 2 images. -/
theorem pipeline_insufficient_images_guard (images : List StImage)
    (stitchOk answerYes : Bool) (dir : String) :
    (images.length ≤ 1 →
      (∀ n, Event.stitchCall n ∉ mainEvents Status.OK images stitchOk answerYes dir) ∧
      Event.error "Not enough images provided" ∈
        mainEvents Status.OK images stitchOk answerYes dir) ∧
    (∀ st n, Event.stitchCall n ∈ mainEvents st images stitchOk answerYes dir →
      2 ≤ images.length) := by
  constructor
  · intro hle
    have hnot : ¬ 1 < images.length := by omega
    constructor
    · intro n hmem
      simp [mainEvents, hnot] at hmem
    · simp [mainEvents, hnot]
  · intro st n hmem
    by_cases hst : st = Status.OK
    · subst hst
      by_cases hlen : 1 < images.length
      · omega
      · simp [mainEvents, hlen] at hmem
    · simp [mainEvents, hst] at hmem

/-- Witness for C1 at the one-image set. -/
theorem pipeline_insufficient_images_guard_witness :
    Event.stitchCall 1 ∉ mainEvents Status.OK [⟨true⟩] false false "" ∧
    Event.error "Not enough images provided" ∈
      mainEvents Status.OK [⟨true⟩] false false "" :=
  ⟨((pipeline_insufficient_images_guard [⟨true⟩] false false "").1 (by decide)).1 1,
   ((pipeline_insufficient_images_guard [⟨true⟩] false false "").1 (by decide)).2⟩

/-- Claim C2 (code bug): running the capture loop on the scripted cycle
sequence frame+RETURN, frame+no-key, frame+RETURN, frame+ESCAPE appends
exactly the two frames with buffers 0 and 2, but both of those buffers
have had the overlay text drawn into them, because `display_frame( frame )`
is a `cv::Mat` header copy sharing the pixel buffer with the captured
frame.  The spec (and the README listing, which uses `frame.clone()`)
requires the appended frames to be un-annotated. -/
theorem cameraCapture_overlay_baked_into_captured_frames :
    (cameraCaptureGo [CamCycle.frame 13, CamCycle.frame 0, CamCycle.frame 13,
        CamCycle.frame 27] 0 [] []).2 = [⟨0⟩, ⟨2⟩] ∧
    0 ∈ (cameraCaptureGo [CamCycle.frame 13, CamCycle.frame 0, CamCycle.frame 13,
        CamCycle.frame 27] 0 [] []).1 ∧
    2 ∈ (cameraCaptureGo [CamCycle.frame 13, CamCycle.frame 0, CamCycle.frame 13,
        CamCycle.frame 27] 0 [] []).1 := by
  decide

/-- Claim C3: the stride is `total * f` with integer truncation
(`strideOf 100 1 10 = 10` for f = 1/10); with total 100 and stride 10 the
sampler performs exactly the 10 successful reads at positions
0, 10, ..., 90 and then stops (for any sufficient fuel), and in general
every terminating run starting at position 0 reads exactly the positions
0, stride, 2*stride, .... -/
theorem videoCapture_sampling :
    strideOf 100 1 10 = 10 ∧
    (∀ extra, videoCapture 100 10 (11 + extra) =
      some [0, 10, 20, 30, 40, 50, 60, 70, 80, 90]) ∧
    (∀ total stride fuel l, videoLoopFuel fuel total stride 0 0 [] = some l →
      ∃ m, l = (List.range m).map fun i => i * stride) := by
  refine ⟨rfl, ?_, ?_⟩
  · intro extra
    have hbase : videoLoopFuel 11 100 10 0 0 [] =
        some [0, 10, 20, 30, 40, 50, 60, 70, 80, 90] := by decide
    have := videoLoop_fuel_mono 11 extra 100 10 0 0 []
      [0, 10, 20, 30, 40, 50, 60, 70, 80, 90] hbase
    rw [videoCapture, Nat.add_comm 11 extra] at *
    exact this
  · intro total stride fuel l h
    obtain ⟨m, hm⟩ := videoLoop_positions_aux fuel total stride 0 [] l h
    refine ⟨m, ?_⟩
    simpa using hm

/-- Witness for C3's general read-positions conjunct at the concrete
100-frame, stride-10 run. -/
theorem videoCapture_sampling_witness :
    ∃ m, [0, 10, 20, 30, 40, 50, 60, 70, 80, 90] =
      (List.range m).map fun i => i * 10 :=
  videoCapture_sampling.2.2 100 10 11 [0, 10, 20, 30, 40, 50, 60, 70, 80, 90]
    (by decide)

/-- Claim C4 (code bug): a parse failure makes `parseArgs` return
`Status::ERROR`, yet the process exit code of `main` is 0 — main ends in
an unconditional `return 0` — contradicting both the claim and the
README's doc comment for main ("@return 0 Program terminated
successfully, else error").  Help and no-recognized-flag also exit 0, as
claimed. -/
theorem main_exit_code_always_zero :
    (parseArgs (ParseOutcome.exn "unrecognised option --bogus")).1 = Status.ERROR ∧
    (mainFull (ParseOutcome.exn "unrecognised option --bogus") (fun _ => [])
      false false "").2 = 0 ∧
    (mainFull (ParseOutcome.ok ⟨true, none, false, false, none, none⟩)
      (fun _ => []) false false "").2 = 0 ∧
    (mainFull (ParseOutcome.ok ⟨false, none, false, false, none, none⟩)
      (fun _ => []) false false "").2 = 0 := by
  refine ⟨rfl, rfl, rfl, rfl⟩

/-- Claim C5 counterexample: with both `--camera` and `--video` given (two
conflicting source flags), `parseArgs` reports no error (status is OK,
not ERROR) and does invoke an adapter — the camera one — so the conflict
is neither reported nor does it stop acquisition. -/
theorem parseArgs_conflict_counterexample :
    2 ≤ numSources conflictingArgs ∧
    parseArgs (ParseOutcome.ok conflictingArgs) = (Status.OK, some Adapter.camera) ∧
    (parseArgs (ParseOutcome.ok conflictingArgs)).1 ≠ Status.ERROR := by
  refine ⟨by decide, rfl, by decide⟩

/-- Claim C5 (amended): when more than one source flag is given (and help
is absent), no conflict is reported; the else-if chain resolves the
conflict by priority demo, camera, select, images, video, invoking
exactly the first matching adapter and returning `Status::OK`. -/
theorem parseArgs_conflict_first_wins (a : ParsedArgs) (hh : a.help = false)
    (hs : 2 ≤ numSources a) :
    parseArgs (ParseOutcome.ok a) = (Status.OK, firstSource a) ∧
    (firstSource a).isSome := by
  rcases a with ⟨help, demo, camera, select, imagesArg, video⟩
  simp only at hh
  subst hh
  cases demo <;> cases camera <;> cases select <;> cases imagesArg <;> cases video <;>
    simp [parseArgs, firstSource, numSources] at hs ⊢

/-- Witness for the amended C5 at the camera-plus-video invocation. -/
theorem parseArgs_conflict_first_wins_witness :
    parseArgs (ParseOutcome.ok conflictingArgs) =
      (Status.OK, firstSource conflictingArgs) ∧
    (firstSource conflictingArgs).isSome :=
  parseArgs_conflict_first_wins conflictingArgs rfl (by decide)

/-- Claim C6: the dataset resolver rejects every demo id outside
`[0, catalogSize)` before generating any path, and for a valid id
generates exactly the entry's `frameCount` paths in ascending index order
of the form `./demos/<name>/<name>-<NN>.png`; the `("hotel", 8)` entry
(id 6) yields `hotel-00.png` through `hotel-07.png`, and above index 9
the index is unpadded (`rio-10.png`). -/
theorem runDemo_spec :
    (∀ d, demos.length ≤ d → runDemo d = none) ∧
    (∀ d, d < demos.length →
      runDemo d = some ((List.range (demos.getD d ("", 0)).2).map
        (demoFile (demos.getD d ("", 0)).1))) ∧
    runDemo 6 = some ["./demos/hotel/hotel-00.png", "./demos/hotel/hotel-01.png",
      "./demos/hotel/hotel-02.png", "./demos/hotel/hotel-03.png",
      "./demos/hotel/hotel-04.png", "./demos/hotel/hotel-05.png",
      "./demos/hotel/hotel-06.png", "./demos/hotel/hotel-07.png"] ∧
    demos.getD 6 ("", 0) = ("hotel", 8) ∧
    demoFile "rio" 10 = "./demos/rio/rio-10.png" := by
  refine ⟨?_, ?_, by rfl, by rfl, by rfl⟩
  · intro d hd
    rw [runDemo, if_neg (by omega)]
  · intro d hd
    rw [runDemo, if_pos hd]

/-- Witness for C6 at the rejected id 11 and the hotel id 6. -/
theorem runDemo_spec_witness :
    runDemo 11 = none ∧
    runDemo 6 = some ((List.range (demos.getD 6 ("", 0)).2).map
      (demoFile (demos.getD 6 ("", 0)).1)) :=
  ⟨runDemo_spec.1 11 (by decide), runDemo_spec.2.1 6 (by decide)⟩

/-- Claim C7: the static upload adapter appends exactly one entry per
requested path, in order, regardless of decode success — the result is
the input set extended by the decode of each path — so the i-th appended
entry is the decode of the i-th path; with 3 paths whose second fails to
decode, the set has 3 entries with the second the empty placeholder. -/
theorem uploadImages_index_aligned (imread : String → StImage)
    (images : List StImage) (files : List String) (i : Nat) :
    uploadImages imread images files = images ++ files.map imread ∧
    (uploadImages imread images files).length = images.length + files.length ∧
    (uploadImages imread [] files).get? i = (files.get? i).map imread ∧
    uploadImages (fun f => ⟨decide (f ≠ "bad")⟩) [] ["a", "bad", "c"] =
      [⟨true⟩, ⟨false⟩, ⟨true⟩] := by
  refine ⟨uploadImages_eq_append imread files images, ?_, ?_, by rfl⟩
  · rw [uploadImages_eq_append imread files images]
    simp
  · rw [uploadImages_eq_append imread files []]
    simp

/-- Claim C8: in the capture loop a frame is appended exactly in the
cycles where RETURN is polled, in script order; ESCAPE ends the loop
without appending, as does end of stream. -/
theorem cameraCapture_append_on_return_only (script : List CamCycle) :
    ∀ (idx : Nat) (overlaid : List Nat) (images : List Mat),
      (cameraCaptureGo script idx overlaid images).2 =
        images ++ (capturedBufs script idx).map Mat.mk := by
  induction script with
  | nil =>
    intro idx overlaid images
    simp [cameraCaptureGo, capturedBufs]
  | cons c rest ih =>
    intro idx overlaid images
    cases c with
    | eos => simp [cameraCaptureGo, capturedBufs]
    | frame key =>
      by_cases hesc : key = ESCAPE
      · simp [cameraCaptureGo, capturedBufs, hesc, ESCAPE]
      · by_cases hret : key = RETURN
        · simp [cameraCaptureGo, capturedBufs, hesc, hret, RETURN, ESCAPE, ih]
        · simp [cameraCaptureGo, capturedBufs, hesc, hret, ih]

/-- Claim C9: after a successful stitch the save workflow is the tail of
the event trace; answering yes with a non-empty destination produces
exactly one encode to that destination followed by exactly one
save-confirmation notification, while answering no, or yes with an empty
destination, produces no events at all. -/
theorem promptSaveImage_save_workflow (answerYes : Bool) (dir : String)
    (n : Nat) (h : dir ≠ "") :
    promptSaveImage true dir =
      [Event.encodeCall dir, Event.notify ("Panorama saved at: " ++ dir)] ∧
    (promptSaveImage true dir).filter isEncodeEvent = [Event.encodeCall dir] ∧
    (promptSaveImage true dir).filter isNotifyEvent =
      [Event.notify ("Panorama saved at: " ++ dir)] ∧
    promptSaveImage false dir = [] ∧
    promptSaveImage true "" = [] ∧
    createPanorama true answerYes dir n =
      Event.stitchCall n :: Event.notify "Panorama successfully created!" ::
        promptSaveImage answerYes dir := by
  refine ⟨?_, ?_, ?_, ?_, ?_, ?_⟩ <;>
    simp [promptSaveImage, createPanorama, isEncodeEvent, isNotifyEvent, h]

/-- Witness for C9 at the destination "out.png". -/
theorem promptSaveImage_save_workflow_witness :
    promptSaveImage true "out.png" =
      [Event.encodeCall "out.png", Event.notify ("Panorama saved at: " ++ "out.png")] ∧
    (promptSaveImage true "out.png").filter isEncodeEvent =
      [Event.encodeCall "out.png"] ∧
    (promptSaveImage true "out.png").filter isNotifyEvent =
      [Event.notify ("Panorama saved at: " ++ "out.png")] ∧
    promptSaveImage false "out.png" = [] ∧
    promptSaveImage true "" = [] ∧
    createPanorama true false "out.png" 2 =
      Event.stitchCall 2 :: Event.notify "Panorama successfully created!" ::
        promptSaveImage false "out.png" :=
  promptSaveImage_save_workflow false "out.png" 2 (by decide)

/-- Claim C10: for a video with at least one frame the read loop
terminates exactly when the truncated stride is at least 1; with stride 0
each iteration re-reads frame 0 and restores the position to 0, so the
loop never terminates. -/
theorem videoCapture_terminates_iff (total stride : Nat) (ht : 1 ≤ total) :
    ((∃ fuel, (videoCapture total stride fuel).isSome) ↔ 1 ≤ stride) ∧
    (stride = 0 → ∀ fuel acc, videoLoopFuel (fuel + 1) total 0 0 0 acc =
      videoLoopFuel fuel total 0 0 0 (acc ++ [0])) := by
  constructor
  · constructor
    · rintro ⟨fuel, hf⟩
      by_contra hs
      have hz : stride = 0 := by omega
      subst hz
      rw [videoCapture, videoLoop_stuck fuel total [] ht] at hf
      simp at hf
    · intro hs
      exact ⟨total + 1,
        videoLoop_terminates_aux total total stride 0 [] hs (by omega)⟩
  · intro hz fuel acc
    rw [videoLoopFuel, if_pos (by omega)]

/-- Witness for C10 at the single-frame video with stride 0 (the
non-terminating configuration). -/
theorem videoCapture_terminates_iff_witness :
    ((∃ fuel, (videoCapture 1 0 fuel).isSome) ↔ 1 ≤ 0) ∧
    ((0 : Nat) = 0 → ∀ fuel acc, videoLoopFuel (fuel + 1) 1 0 0 0 acc =
      videoLoopFuel fuel 1 0 0 0 (acc ++ [0])) :=
  videoCapture_terminates_iff 1 0 (by decide)

end Panorama
